import Mathlib

/-!
# Identity v3 acceptance helpers

A shallow embedding of `acceptance/openstack/identity/v3/identity.go`.

Every helper of that file is a short sequential wrapper around one or two
calls of the client library.  The embedding makes the three things a helper
can do observable:

* the lines it writes through `t.Logf` / `t.Log` (`Run.logs`),
* the calls it issues to the client library, with their arguments
  (`Run.requests`),
* how it ends (`Run.outcome`): a normal return, `t.Fatalf`, or a run-time
  panic caused by dereferencing a nil pointer.

The client library is not part of this file.  Its calls are network round
trips, so each helper takes the behaviour of the library call it makes as an
argument (`Create`, `Delete`, `AllPages`, ...).  Go pointers and Go `error`
values may be nil and are `Option`s; a Go result pair `(*T, error)` is a pair
of `Option`s, because Go lets both halves be nil or non-nil independently.
-/

/-- Go's built-in `error` interface: a value with an `Error()` method.  The
verb `%v` of the formatting routines prints an error through this method. -/
class GoError (E : Type) where
  /-- The text of the error. -/
  Error : E → String

instance : GoError String := ⟨fun s => s⟩

/-- How a call of a helper ends. -/
inductive Outcome (α : Type) where
  /-- The helper reached a `return` statement. -/
  | returned (v : α)
  /-- The helper called `t.Fatalf` with this formatted message, which marks the
  test failed and stops it. -/
  | fatal (msg : String)
  /-- The helper dereferenced a nil pointer. -/
  | panic
  deriving DecidableEq, Repr

/-- Everything observable about one call of a helper. -/
structure Run (Q α : Type) where
  /-- Lines written with `t.Log` / `t.Logf`, oldest first. -/
  logs : List String
  /-- Calls issued to the client library, oldest first. -/
  requests : List Q
  /-- How the call ended. -/
  outcome : Outcome α
  deriving DecidableEq, Repr

/-! ## Library types

The option and record structs are declared by the client library.  The
helpers touch only `Name` of an option struct and `ID` / `Name` of a record;
all remaining fields are carried in `Fields`, whose type is left open. -/

namespace projects

/-- Options of a project create request. -/
structure CreateOpts (F : Type) where
  Name : String
  Fields : F
  deriving DecidableEq, Repr

/-- A project record. -/
structure Project (G : Type) where
  ID : String
  Name : String
  Fields : G
  deriving DecidableEq, Repr

end projects

namespace users

/-- Options of a user create request. -/
structure CreateOpts (F : Type) where
  Name : String
  Fields : F
  deriving DecidableEq, Repr

/-- A user record. -/
structure User (G : Type) where
  ID : String
  Name : String
  Fields : G
  deriving DecidableEq, Repr

end users

namespace groups

/-- Options of a group create request. -/
structure CreateOpts (F : Type) where
  Name : String
  Fields : F
  deriving DecidableEq, Repr

/-- A group record. -/
structure Group (G : Type) where
  ID : String
  Fields : G
  deriving DecidableEq, Repr

end groups

namespace domains

/-- Options of a domain create request. -/
structure CreateOpts (F : Type) where
  Name : String
  Fields : F
  deriving DecidableEq, Repr

/-- A domain record. -/
structure Domain (G : Type) where
  ID : String
  Fields : G
  deriving DecidableEq, Repr

end domains

namespace roles

/-- Options of a role create request. -/
structure CreateOpts (F : Type) where
  Name : String
  Fields : F
  deriving DecidableEq, Repr

/-- A role record. -/
structure Role (G : Type) where
  ID : String
  Name : String
  Fields : G
  deriving DecidableEq, Repr

end roles

/-- The zero value `projects.CreateOpts{}`. -/
def projects.CreateOpts.zero {F : Type} [Inhabited F] : projects.CreateOpts F := ⟨"", default⟩

/-- The zero value `users.CreateOpts{}`. -/
def users.CreateOpts.zero {F : Type} [Inhabited F] : users.CreateOpts F := ⟨"", default⟩

/-- The zero value `groups.CreateOpts{}`. -/
def groups.CreateOpts.zero {F : Type} [Inhabited F] : groups.CreateOpts F := ⟨"", default⟩

/-- The zero value `domains.CreateOpts{}`. -/
def domains.CreateOpts.zero {F : Type} [Inhabited F] : domains.CreateOpts F := ⟨"", default⟩

/-- The zero value `roles.CreateOpts{}`. -/
def roles.CreateOpts.zero {F : Type} [Inhabited F] : roles.CreateOpts F := ⟨"", default⟩

namespace tools

/-- Modelled from the spec: `tools.RandomString` lives in the package
`acceptance/tools`, which is not among the source files.  The spec describes
the generated name as a "fixed prefix + fixed-length random suffix": the
result is the given prefix followed by `n` characters taken from the random
source `rnd`. -/
def RandomString (rnd : Nat → Char) (pfx : String) (n : Nat) : String :=
  pfx ++ String.mk ((List.range n).map rnd)

end tools

namespace v3

/-! ## Create helpers -/

/-- `CreateProject` (identity.go, lines 19-40).  `RandomString` is the name
generator of the tools package and `Create` is
`projects.Create(client, opts).Extract()`. -/
def CreateProject {F G E : Type} [Inhabited F]
    (RandomString : String → Nat → String)
    (Create : projects.CreateOpts F → Option (projects.Project G) × Option E)
    (c : Option (projects.CreateOpts F)) :
    Run (projects.CreateOpts F) (Option (projects.Project G) × Option E) :=
  let name := RandomString "ACPTTEST" 8
  let attempt := "Attempting to create project: " ++ name
  let createOpts : projects.CreateOpts F :=
    match c with
    | some v => v
    | none => projects.CreateOpts.zero
  let createOpts := { createOpts with Name := name }
  match Create createOpts with
  | (project, some err) => ⟨[attempt], [createOpts], .returned (project, some err)⟩
  | (none, none) => ⟨[attempt], [createOpts], .panic⟩
  | (some project, none) =>
    ⟨[attempt, "Successfully created project " ++ name ++ " with ID " ++ project.ID],
      [createOpts], .returned (some project, none)⟩

/-- `CreateUser` (identity.go, lines 46-67).  `Create` is
`users.Create(client, opts).Extract()`. -/
def CreateUser {F G E : Type} [Inhabited F]
    (RandomString : String → Nat → String)
    (Create : users.CreateOpts F → Option (users.User G) × Option E)
    (c : Option (users.CreateOpts F)) :
    Run (users.CreateOpts F) (Option (users.User G) × Option E) :=
  let name := RandomString "ACPTTEST" 8
  let attempt := "Attempting to create user: " ++ name
  let createOpts : users.CreateOpts F :=
    match c with
    | some v => v
    | none => users.CreateOpts.zero
  let createOpts := { createOpts with Name := name }
  match Create createOpts with
  | (user, some err) => ⟨[attempt], [createOpts], .returned (user, some err)⟩
  | (none, none) => ⟨[attempt], [createOpts], .panic⟩
  | (some user, none) =>
    ⟨[attempt, "Successfully created user " ++ name ++ " with ID " ++ user.ID],
      [createOpts], .returned (some user, none)⟩

/-- `CreateGroup` (identity.go, lines 73-94).  `Create` is
`groups.Create(client, opts).Extract()`. -/
def CreateGroup {F G E : Type} [Inhabited F]
    (RandomString : String → Nat → String)
    (Create : groups.CreateOpts F → Option (groups.Group G) × Option E)
    (c : Option (groups.CreateOpts F)) :
    Run (groups.CreateOpts F) (Option (groups.Group G) × Option E) :=
  let name := RandomString "ACPTTEST" 8
  let attempt := "Attempting to create group: " ++ name
  let createOpts : groups.CreateOpts F :=
    match c with
    | some v => v
    | none => groups.CreateOpts.zero
  let createOpts := { createOpts with Name := name }
  match Create createOpts with
  | (group, some err) => ⟨[attempt], [createOpts], .returned (group, some err)⟩
  | (none, none) => ⟨[attempt], [createOpts], .panic⟩
  | (some group, none) =>
    ⟨[attempt, "Successfully created group " ++ name ++ " with ID " ++ group.ID],
      [createOpts], .returned (some group, none)⟩

/-- `CreateDomain` (identity.go, lines 100-121).  `Create` is
`domains.Create(client, opts).Extract()`. -/
def CreateDomain {F G E : Type} [Inhabited F]
    (RandomString : String → Nat → String)
    (Create : domains.CreateOpts F → Option (domains.Domain G) × Option E)
    (c : Option (domains.CreateOpts F)) :
    Run (domains.CreateOpts F) (Option (domains.Domain G) × Option E) :=
  let name := RandomString "ACPTTEST" 8
  let attempt := "Attempting to create domain: " ++ name
  let createOpts : domains.CreateOpts F :=
    match c with
    | some v => v
    | none => domains.CreateOpts.zero
  let createOpts := { createOpts with Name := name }
  match Create createOpts with
  | (domain, some err) => ⟨[attempt], [createOpts], .returned (domain, some err)⟩
  | (none, none) => ⟨[attempt], [createOpts], .panic⟩
  | (some domain, none) =>
    ⟨[attempt, "Successfully created domain " ++ name ++ " with ID " ++ domain.ID],
      [createOpts], .returned (some domain, none)⟩

/-- `CreateRole` (identity.go, lines 127-148).  `Create` is
`roles.Create(client, opts).Extract()`. -/
def CreateRole {F G E : Type} [Inhabited F]
    (RandomString : String → Nat → String)
    (Create : roles.CreateOpts F → Option (roles.Role G) × Option E)
    (c : Option (roles.CreateOpts F)) :
    Run (roles.CreateOpts F) (Option (roles.Role G) × Option E) :=
  let name := RandomString "ACPTTEST" 8
  let attempt := "Attempting to create role: " ++ name
  let createOpts : roles.CreateOpts F :=
    match c with
    | some v => v
    | none => roles.CreateOpts.zero
  let createOpts := { createOpts with Name := name }
  match Create createOpts with
  | (role, some err) => ⟨[attempt], [createOpts], .returned (role, some err)⟩
  | (none, none) => ⟨[attempt], [createOpts], .panic⟩
  | (some role, none) =>
    ⟨[attempt, "Successfully created role " ++ name ++ " with ID " ++ role.ID],
      [createOpts], .returned (some role, none)⟩

/-! ## Role grants -/

/-- `AssignRoleToUserOnProject` (identity.go, lines 152-163).  `Assign` is
`roles.AssignToUserOnProject(client, roleID, userID, projectID).ExtractErr()`;
a request is recorded as the triple of identifiers in argument order.  The
three records arrive as pointers, and the first log line reads through them. -/
def AssignRoleToUserOnProject {GR GU GP E : Type}
    (Assign : String → String → String → Option E)
    (role : Option (roles.Role GR)) (user : Option (users.User GU))
    (project : Option (projects.Project GP)) :
    Run (String × String × String) (Option E) :=
  match role, user, project with
  | some role, some user, some project =>
    let attempt := "Attempting to grant user " ++ user.Name ++ " role " ++ role.Name ++
      " on project " ++ project.Name
    match Assign role.ID user.ID project.ID with
    | some err => ⟨[attempt], [(role.ID, user.ID, project.ID)], .returned (some err)⟩
    | none =>
      ⟨[attempt, "Granted user " ++ user.Name ++ " role " ++ role.Name ++
          " on project " ++ project.Name],
        [(role.ID, user.ID, project.ID)], .returned none⟩
  | _, _, _ => ⟨[], [], .panic⟩

/-- `UnassignRoleFromUserOnProject` (identity.go, lines 215-224).  `Unassign` is
`roles.UnassignFromUserOnProject(client, roleID, userID, projectID).ExtractErr()`. -/
def UnassignRoleFromUserOnProject {GR GU GP E : Type}
    (Unassign : String → String → String → Option E)
    (role : Option (roles.Role GR)) (user : Option (users.User GU))
    (project : Option (projects.Project GP)) :
    Run (String × String × String) Unit :=
  match role, user, project with
  | some role, some user, some project =>
    let attempt := "Attempting to remove role " ++ role.Name ++ " from user " ++ user.Name ++
      " on project " ++ project.Name
    match Unassign role.ID user.ID project.ID with
    | some _ => ⟨[attempt], [(role.ID, user.ID, project.ID)], .fatal "Unable to remove role"⟩
    | none =>
      ⟨[attempt, "Removed role " ++ role.Name ++ " from user " ++ user.Name ++
          " on project " ++ project.Name],
        [(role.ID, user.ID, project.ID)], .returned ()⟩
  | _, _, _ => ⟨[], [], .panic⟩

/-! ## Delete helpers -/

/-- `DeleteProject` (identity.go, lines 168-175).  `Delete` is
`projects.Delete(client, projectID).ExtractErr()`. -/
def DeleteProject {E : Type} [GoError E] (Delete : String → Option E) (projectID : String) :
    Run String Unit :=
  match Delete projectID with
  | some err =>
    ⟨[], [projectID],
      .fatal ("Unable to delete project " ++ projectID ++ ": " ++ GoError.Error err)⟩
  | none => ⟨["Deleted project: " ++ projectID], [projectID], .returned ()⟩

/-- `DeleteUser` (identity.go, lines 180-187).  `Delete` is
`users.Delete(client, userID).ExtractErr()`. -/
def DeleteUser {E : Type} [GoError E] (Delete : String → Option E) (userID : String) :
    Run String Unit :=
  match Delete userID with
  | some err =>
    ⟨[], [userID],
      .fatal ("Unable to delete user with ID " ++ userID ++ ": " ++ GoError.Error err)⟩
  | none => ⟨["Deleted user with ID: " ++ userID], [userID], .returned ()⟩

/-- `DeleteGroup` (identity.go, lines 192-199).  `Delete` is
`groups.Delete(client, groupID).ExtractErr()`. -/
def DeleteGroup {E : Type} [GoError E] (Delete : String → Option E) (groupID : String) :
    Run String Unit :=
  match Delete groupID with
  | some err =>
    ⟨[], [groupID],
      .fatal ("Unable to delete group " ++ groupID ++ ": " ++ GoError.Error err)⟩
  | none => ⟨["Deleted group: " ++ groupID], [groupID], .returned ()⟩

/-- `DeleteDomain` (identity.go, lines 204-211).  `Delete` is
`domains.Delete(client, domainID).ExtractErr()`. -/
def DeleteDomain {E : Type} [GoError E] (Delete : String → Option E) (domainID : String) :
    Run String Unit :=
  match Delete domainID with
  | some err =>
    ⟨[], [domainID],
      .fatal ("Unable to delete domain " ++ domainID ++ ": " ++ GoError.Error err)⟩
  | none => ⟨["Deleted domain: " ++ domainID], [domainID], .returned ()⟩

/-! ## Find helpers -/

/-- The library calls a Find helper can issue. -/
inductive ListCall (Pg : Type) where
  /-- The call `List(client, nil).AllPages()`. -/
  | AllPages
  /-- The call `ExtractRoles(page)` or `ExtractProjects(page)`. -/
  | Extract (page : Pg)
  deriving DecidableEq, Repr

/-- `FindRole` (identity.go, lines 229-251).  `AllPages` is the result of
`roles.List(client, nil).AllPages()` and `ExtractRoles` is `roles.ExtractRoles`;
`Pg` is the library's page type. -/
def FindRole {Pg G E : Type} (AllPages : Pg × Option E)
    (ExtractRoles : Pg → List (roles.Role G) × Option E) :
    Run (ListCall Pg) (Option (roles.Role G) × Option E) :=
  let attempt := "Attempting to find a role"
  match AllPages with
  | (_, some err) => ⟨[attempt], [.AllPages], .returned (none, some err)⟩
  | (allPages, none) =>
    match ExtractRoles allPages with
    | (_, some err) => ⟨[attempt], [.AllPages, .Extract allPages], .returned (none, some err)⟩
    | (allRoles, none) =>
      let role : Option (roles.Role G) :=
        match allRoles with
        | r :: _ => some r
        | [] => none
      match role with
      | none => ⟨[attempt], [.AllPages, .Extract allPages], .panic⟩
      | some role =>
        ⟨[attempt, "Successfully found a role " ++ role.Name ++ " with ID " ++ role.ID],
          [.AllPages, .Extract allPages], .returned (some role, none)⟩

/-- `FindProject` (identity.go, lines 256-279).  `AllPages` is the result of
`projects.List(client, nil).AllPages()` and `ExtractProjects` is
`projects.ExtractProjects`. -/
def FindProject {Pg G E : Type} (AllPages : Pg × Option E)
    (ExtractProjects : Pg → List (projects.Project G) × Option E) :
    Run (ListCall Pg) (Option (projects.Project G) × Option E) :=
  let attempt := "Attempting to find a project"
  match AllPages with
  | (_, some err) => ⟨[attempt], [.AllPages], .returned (none, some err)⟩
  | (allPages, none) =>
    match ExtractProjects allPages with
    | (_, some err) => ⟨[attempt], [.AllPages, .Extract allPages], .returned (none, some err)⟩
    | (allProjects, none) =>
      let project : Option (projects.Project G) :=
        match allProjects with
        | p :: _ => some p
        | [] => none
      match project with
      | none => ⟨[attempt], [.AllPages, .Extract allPages], .panic⟩
      | some project =>
        ⟨[attempt,
            "Successfully found a project " ++ project.Name ++ " with ID " ++ project.ID],
          [.AllPages, .Extract allPages], .returned (some project, none)⟩

/-! ## Contracts

The error-handling policies of the helpers, stated once and instantiated per
helper below. -/

/-- Propagate-to-caller policy of a Create helper, relative to the library call
`Create` it wraps.  The run issued exactly one request `opts`, and with
`Create opts` the pair the library handed back:

* the helper returns a non-nil error exactly when the library error is non-nil;
* when the library error is non-nil, the helper returns the library record and
  that very error;
* when the library error is nil and the library record is non-nil, the helper
  returns that record with a nil error. -/
def PropagatesCreate {Q R E : Type} (Create : Q → Option R × Option E)
    (run : Run Q (Option R × Option E)) : Prop :=
  ∃ opts, run.requests = [opts] ∧
    ((∃ r e, run.outcome = .returned (r, some e)) ↔ (Create opts).2 ≠ none) ∧
    (∀ r e, Create opts = (r, some e) → run.outcome = .returned (r, some e)) ∧
    (∀ p, Create opts = (some p, none) → run.outcome = .returned (some p, none))

/-- Abort-immediately policy of a Delete helper, relative to the library call
`Delete` it wraps: one delete request for `id`; the run ends in `t.Fatalf`
exactly when the library error is non-nil, and returns normally when it is
nil. -/
def AbortsOnDeleteError {E : Type} (Delete : String → Option E) (id : String)
    (run : Run String Unit) : Prop :=
  run.requests = [id] ∧
    ((∃ msg, run.outcome = .fatal msg) ↔ Delete id ≠ none) ∧
    (Delete id = none → run.outcome = .returned ())

/-- Propagate-to-caller policy of a Find helper, relative to the listing result
`AllPages` and the extraction function `Extract`:

* the helper returns a non-nil error exactly when listing failed, or listing
  succeeded and extraction failed;
* when listing failed, only the listing call was issued, and the helper
  returns a nil record with the listing error;
* when listing succeeded and extraction failed, the helper returns a nil
  record with the extraction error. -/
def PropagatesFind {Pg R E : Type} (AllPages : Pg × Option E)
    (Extract : Pg → List R × Option E)
    (run : Run (ListCall Pg) (Option R × Option E)) : Prop :=
  ((∃ r e, run.outcome = .returned (r, some e)) ↔
      (AllPages.2 ≠ none ∨ (AllPages.2 = none ∧ (Extract AllPages.1).2 ≠ none))) ∧
    (∀ e, AllPages.2 = some e →
      run.requests = [.AllPages] ∧ run.outcome = .returned (none, some e)) ∧
    (∀ e, AllPages.2 = none → (Extract AllPages.1).2 = some e →
      run.requests = [.AllPages, .Extract AllPages.1] ∧
        run.outcome = .returned (none, some e))

/-! ## Create: the options sent -/

/-- C1: for each of CreateProject, CreateUser, CreateGroup, CreateDomain and
CreateRole and every non-nil options value `c`, the helper issues exactly one
create request, and the options of that request equal `*c` in every field
except `Name`, which is the generated name whatever `Name` the caller put
in `c`. -/
theorem create_keeps_overrides_except_name
    {FP GP FU GU FG GG FD GD FR GR E : Type}
    [Inhabited FP] [Inhabited FU] [Inhabited FG] [Inhabited FD] [Inhabited FR]
    (RandomString : String → Nat → String) :
    (∀ (Create : projects.CreateOpts FP → Option (projects.Project GP) × Option E)
        (c : projects.CreateOpts FP),
        (CreateProject RandomString Create (some c)).requests
          = [⟨RandomString "ACPTTEST" 8, c.Fields⟩]) ∧
    (∀ (Create : users.CreateOpts FU → Option (users.User GU) × Option E)
        (c : users.CreateOpts FU),
        (CreateUser RandomString Create (some c)).requests
          = [⟨RandomString "ACPTTEST" 8, c.Fields⟩]) ∧
    (∀ (Create : groups.CreateOpts FG → Option (groups.Group GG) × Option E)
        (c : groups.CreateOpts FG),
        (CreateGroup RandomString Create (some c)).requests
          = [⟨RandomString "ACPTTEST" 8, c.Fields⟩]) ∧
    (∀ (Create : domains.CreateOpts FD → Option (domains.Domain GD) × Option E)
        (c : domains.CreateOpts FD),
        (CreateDomain RandomString Create (some c)).requests
          = [⟨RandomString "ACPTTEST" 8, c.Fields⟩]) ∧
    (∀ (Create : roles.CreateOpts FR → Option (roles.Role GR) × Option E)
        (c : roles.CreateOpts FR),
        (CreateRole RandomString Create (some c)).requests
          = [⟨RandomString "ACPTTEST" 8, c.Fields⟩]) := by
  refine ⟨?_, ?_, ?_, ?_, ?_⟩ <;> intro Create c
  · simp only [CreateProject]; split <;> rfl
  · simp only [CreateUser]; split <;> rfl
  · simp only [CreateGroup]; split <;> rfl
  · simp only [CreateDomain]; split <;> rfl
  · simp only [CreateRole]; split <;> rfl

/-- C9: for each Create helper called with nil options, the single create
request carries the zero-value options with only `Name` set, where `Name` is
"ACPTTEST" followed by a random suffix of length 8, and the whole run is
the same as the one obtained by passing a pointer to the zero-value options. -/
theorem create_nil_sends_named_zero_opts
    {FP GP FU GU FG GG FD GD FR GR E : Type}
    [Inhabited FP] [Inhabited FU] [Inhabited FG] [Inhabited FD] [Inhabited FR]
    (rnd : Nat → Char) :
    ∃ suffix : String, suffix.length = 8 ∧
      tools.RandomString rnd "ACPTTEST" 8 = "ACPTTEST" ++ suffix ∧
      (∀ Create : projects.CreateOpts FP → Option (projects.Project GP) × Option E,
        (CreateProject (tools.RandomString rnd) Create none).requests
            = [⟨"ACPTTEST" ++ suffix, default⟩] ∧
          CreateProject (tools.RandomString rnd) Create none
            = CreateProject (tools.RandomString rnd) Create (some projects.CreateOpts.zero)) ∧
      (∀ Create : users.CreateOpts FU → Option (users.User GU) × Option E,
        (CreateUser (tools.RandomString rnd) Create none).requests
            = [⟨"ACPTTEST" ++ suffix, default⟩] ∧
          CreateUser (tools.RandomString rnd) Create none
            = CreateUser (tools.RandomString rnd) Create (some users.CreateOpts.zero)) ∧
      (∀ Create : groups.CreateOpts FG → Option (groups.Group GG) × Option E,
        (CreateGroup (tools.RandomString rnd) Create none).requests
            = [⟨"ACPTTEST" ++ suffix, default⟩] ∧
          CreateGroup (tools.RandomString rnd) Create none
            = CreateGroup (tools.RandomString rnd) Create (some groups.CreateOpts.zero)) ∧
      (∀ Create : domains.CreateOpts FD → Option (domains.Domain GD) × Option E,
        (CreateDomain (tools.RandomString rnd) Create none).requests
            = [⟨"ACPTTEST" ++ suffix, default⟩] ∧
          CreateDomain (tools.RandomString rnd) Create none
            = CreateDomain (tools.RandomString rnd) Create (some domains.CreateOpts.zero)) ∧
      (∀ Create : roles.CreateOpts FR → Option (roles.Role GR) × Option E,
        (CreateRole (tools.RandomString rnd) Create none).requests
            = [⟨"ACPTTEST" ++ suffix, default⟩] ∧
          CreateRole (tools.RandomString rnd) Create none
            = CreateRole (tools.RandomString rnd) Create (some roles.CreateOpts.zero)) := by
  refine ⟨String.mk ((List.range 8).map rnd), by simp [String.length], rfl, ?_, ?_, ?_, ?_, ?_⟩
    <;> intro Create <;> refine ⟨?_, rfl⟩
  · simp only [CreateProject]; split <;> rfl
  · simp only [CreateUser]; split <;> rfl
  · simp only [CreateGroup]; split <;> rfl
  · simp only [CreateDomain]; split <;> rfl
  · simp only [CreateRole]; split <;> rfl

/-! ## Create: error propagation -/

/-- C2 (as amended): each Create helper issues one create request and hands the
library result back: it returns a non-nil error exactly when the library
returned one, that error is the library error itself (with the record the
library returned beside it), and when the library returned a nil error with a
non-nil record the helper returns exactly that record with a nil error. -/
theorem create_propagates_result
    {FP GP FU GU FG GG FD GD FR GR E : Type}
    [Inhabited FP] [Inhabited FU] [Inhabited FG] [Inhabited FD] [Inhabited FR]
    (RandomString : String → Nat → String) :
    (∀ (Create : projects.CreateOpts FP → Option (projects.Project GP) × Option E) c,
        PropagatesCreate Create (CreateProject RandomString Create c)) ∧
    (∀ (Create : users.CreateOpts FU → Option (users.User GU) × Option E) c,
        PropagatesCreate Create (CreateUser RandomString Create c)) ∧
    (∀ (Create : groups.CreateOpts FG → Option (groups.Group GG) × Option E) c,
        PropagatesCreate Create (CreateGroup RandomString Create c)) ∧
    (∀ (Create : domains.CreateOpts FD → Option (domains.Domain GD) × Option E) c,
        PropagatesCreate Create (CreateDomain RandomString Create c)) ∧
    (∀ (Create : roles.CreateOpts FR → Option (roles.Role GR) × Option E) c,
        PropagatesCreate Create (CreateRole RandomString Create c)) := by
  refine ⟨?_, ?_, ?_, ?_, ?_⟩ <;> intro Create c
  · refine ⟨⟨RandomString "ACPTTEST" 8,
      (match c with | some v => v | none => projects.CreateOpts.zero).Fields⟩, ?_⟩
    simp only [CreateProject]
    rcases h : Create _ with ⟨_ | p, _ | e⟩ <;> simp
  · refine ⟨⟨RandomString "ACPTTEST" 8,
      (match c with | some v => v | none => users.CreateOpts.zero).Fields⟩, ?_⟩
    simp only [CreateUser]
    rcases h : Create _ with ⟨_ | p, _ | e⟩ <;> simp
  · refine ⟨⟨RandomString "ACPTTEST" 8,
      (match c with | some v => v | none => groups.CreateOpts.zero).Fields⟩, ?_⟩
    simp only [CreateGroup]
    rcases h : Create _ with ⟨_ | p, _ | e⟩ <;> simp
  · refine ⟨⟨RandomString "ACPTTEST" 8,
      (match c with | some v => v | none => domains.CreateOpts.zero).Fields⟩, ?_⟩
    simp only [CreateDomain]
    rcases h : Create _ with ⟨_ | p, _ | e⟩ <;> simp
  · refine ⟨⟨RandomString "ACPTTEST" 8,
      (match c with | some v => v | none => roles.CreateOpts.zero).Fields⟩, ?_⟩
    simp only [CreateRole]
    rcases h : Create _ with ⟨_ | p, _ | e⟩ <;> simp

/-- C2 (counterexample to the claim as stated): a library result with a nil
error and a nil record is a success of the create request, yet none of the five
helpers returns it: each one reads `ID` through the nil record for its success
log and ends in a panic instead of returning `(nil, nil)`. -/
theorem create_nil_record_does_not_return :
    (CreateProject (fun pfx _ => pfx ++ "aaaaaaaa")
        (fun _ => ((none : Option (projects.Project Unit)), (none : Option String)))
        (none : Option (projects.CreateOpts Unit))).outcome = Outcome.panic ∧
    (CreateUser (fun pfx _ => pfx ++ "aaaaaaaa")
        (fun _ => ((none : Option (users.User Unit)), (none : Option String)))
        (none : Option (users.CreateOpts Unit))).outcome = Outcome.panic ∧
    (CreateGroup (fun pfx _ => pfx ++ "aaaaaaaa")
        (fun _ => ((none : Option (groups.Group Unit)), (none : Option String)))
        (none : Option (groups.CreateOpts Unit))).outcome = Outcome.panic ∧
    (CreateDomain (fun pfx _ => pfx ++ "aaaaaaaa")
        (fun _ => ((none : Option (domains.Domain Unit)), (none : Option String)))
        (none : Option (domains.CreateOpts Unit))).outcome = Outcome.panic ∧
    (CreateRole (fun pfx _ => pfx ++ "aaaaaaaa")
        (fun _ => ((none : Option (roles.Role Unit)), (none : Option String)))
        (none : Option (roles.CreateOpts Unit))).outcome = Outcome.panic ∧
    (CreateProject (fun pfx _ => pfx ++ "aaaaaaaa")
        (fun _ => ((none : Option (projects.Project Unit)), (none : Option String)))
        (none : Option (projects.CreateOpts Unit))).outcome ≠ Outcome.returned (none, none) := by
  refine ⟨rfl, rfl, rfl, rfl, rfl, ?_⟩
  intro h
  cases h

/-- Witness for C2: with a library that creates the project and reports no
error, `CreateProject` returns the created record and a nil error. -/
theorem create_propagates_result_witness :
    (CreateProject (fun pfx _ => pfx ++ "aaaaaaaa")
        (fun _ => (some (⟨"p-1", "ACPTTESTaaaaaaaa", ()⟩ : projects.Project Unit),
          (none : Option String)))
        (none : Option (projects.CreateOpts Unit))).outcome
      = Outcome.returned (some ⟨"p-1", "ACPTTESTaaaaaaaa", ()⟩, none) := by
  obtain ⟨_, _, _, _, hok⟩ :=
    (@create_propagates_result Unit Unit Unit Unit Unit Unit Unit Unit Unit Unit String
      _ _ _ _ _ (fun pfx _ => pfx ++ "aaaaaaaa")).1
      (fun _ => (some (⟨"p-1", "ACPTTESTaaaaaaaa", ()⟩ : projects.Project Unit),
        (none : Option String))) none
  exact hok _ rfl

/-! ## Delete: abort on error -/

/-- C3: for each of DeleteProject, DeleteUser, DeleteGroup and DeleteDomain
and every identifier, the helper issues one delete request for that
identifier, ends in `t.Fatalf` if and only if the request returns a non-nil
error, and returns normally when the request succeeds. -/
theorem delete_aborts_iff_error {E : Type} [GoError E]
    (Delete : String → Option E) (id : String) :
    AbortsOnDeleteError Delete id (DeleteProject Delete id) ∧
    AbortsOnDeleteError Delete id (DeleteUser Delete id) ∧
    AbortsOnDeleteError Delete id (DeleteGroup Delete id) ∧
    AbortsOnDeleteError Delete id (DeleteDomain Delete id) := by
  cases h : Delete id <;>
    simp [AbortsOnDeleteError, DeleteProject, DeleteUser, DeleteGroup, DeleteDomain, h]

/-- Witness for C3: deleting an existing project returns normally. -/
theorem delete_aborts_iff_error_witness :
    (DeleteProject (fun _ => (none : Option String)) "p-1").outcome = Outcome.returned () :=
  (delete_aborts_iff_error (fun _ => (none : Option String)) "p-1").1.2.2 rfl

/-! ## Find -/

/-- C4: for FindRole and FindProject, whenever listing and extraction succeed
and the extracted collection is non-empty, the helper returns a nil error and
the first element of the extracted collection. -/
theorem find_returns_first {Pg GR GP E : Type} :
    (∀ (AllPages : Pg × Option E) (ExtractRoles : Pg → List (roles.Role GR) × Option E)
        (r : roles.Role GR) (rest : List (roles.Role GR)),
        AllPages.2 = none → ExtractRoles AllPages.1 = (r :: rest, none) →
        (FindRole AllPages ExtractRoles).outcome = .returned (some r, none)) ∧
    (∀ (AllPages : Pg × Option E)
        (ExtractProjects : Pg → List (projects.Project GP) × Option E)
        (p : projects.Project GP) (rest : List (projects.Project GP)),
        AllPages.2 = none → ExtractProjects AllPages.1 = (p :: rest, none) →
        (FindProject AllPages ExtractProjects).outcome = .returned (some p, none)) := by
  constructor
  · rintro ⟨pg, err⟩ Extract r rest h1 h2
    simp only at h1 h2
    subst h1
    simp [FindRole, h2]
  · rintro ⟨pg, err⟩ Extract r rest h1 h2
    simp only at h1 h2
    subst h1
    simp [FindProject, h2]

/-- Witness for C4: a two-role collection yields its first role. -/
theorem find_returns_first_witness :
    (FindRole ((0 : Nat), (none : Option String))
        (fun _ => ([(⟨"r-1", "admin", ()⟩ : roles.Role Unit), ⟨"r-2", "member", ()⟩],
          (none : Option String)))).outcome
      = Outcome.returned (some ⟨"r-1", "admin", ()⟩, none) :=
  (@find_returns_first Nat Unit Unit String).1 ((0 : Nat), (none : Option String))
    (fun _ => ([(⟨"r-1", "admin", ()⟩ : roles.Role Unit), ⟨"r-2", "member", ()⟩],
      (none : Option String)))
    ⟨"r-1", "admin", ()⟩ [⟨"r-2", "member", ()⟩] rfl rfl

/-- C6: FindRole and FindProject return a non-nil error if and only if listing
(AllPages) or extraction fails; the returned record is then nil and the error
is the error of the failing step itself, and when listing has failed the
extraction call is not issued. -/
theorem find_propagates_errors {Pg GR GP E : Type} (AllPages : Pg × Option E) :
    (∀ ExtractRoles : Pg → List (roles.Role GR) × Option E,
        PropagatesFind AllPages ExtractRoles (FindRole AllPages ExtractRoles)) ∧
    (∀ ExtractProjects : Pg → List (projects.Project GP) × Option E,
        PropagatesFind AllPages ExtractProjects (FindProject AllPages ExtractProjects)) := by
  obtain ⟨pg, err⟩ := AllPages
  constructor
  · intro Extract
    cases err with
    | some e => simp [PropagatesFind, FindRole]
    | none =>
      rcases h : Extract pg with ⟨_ | ⟨r, rest⟩, _ | e⟩ <;> simp [PropagatesFind, FindRole, h]
  · intro Extract
    cases err with
    | some e => simp [PropagatesFind, FindProject]
    | none =>
      rcases h : Extract pg with ⟨_ | ⟨r, rest⟩, _ | e⟩ <;> simp [PropagatesFind, FindProject, h]

/-- Witness for C6: a failed listing is returned as is and nothing is
extracted. -/
theorem find_propagates_errors_witness :
    (FindRole ((0 : Nat), some "listing failed")
        (fun _ => (([] : List (roles.Role Unit)), (none : Option String)))).requests
        = [ListCall.AllPages] ∧
      (FindRole ((0 : Nat), some "listing failed")
        (fun _ => (([] : List (roles.Role Unit)), (none : Option String)))).outcome
        = Outcome.returned (none, some "listing failed") :=
  ((@find_propagates_errors Nat Unit Unit String ((0 : Nat), some "listing failed")).1
    (fun _ => (([] : List (roles.Role Unit)), (none : Option String)))).2.1 "listing failed" rfl

/-- C10: for FindRole and FindProject, when listing and extraction succeed but
the extracted collection is empty, the helper does not return: after the
listing and extraction calls it reads `Name` and `ID` through a nil record for
the success log and ends in a panic, with only the first log line written. -/
theorem find_empty_panics {Pg GR GP E : Type} :
    (∀ (AllPages : Pg × Option E) (ExtractRoles : Pg → List (roles.Role GR) × Option E),
        AllPages.2 = none → ExtractRoles AllPages.1 = ([], none) →
        FindRole AllPages ExtractRoles
          = ⟨["Attempting to find a role"], [.AllPages, .Extract AllPages.1], .panic⟩) ∧
    (∀ (AllPages : Pg × Option E)
        (ExtractProjects : Pg → List (projects.Project GP) × Option E),
        AllPages.2 = none → ExtractProjects AllPages.1 = ([], none) →
        FindProject AllPages ExtractProjects
          = ⟨["Attempting to find a project"], [.AllPages, .Extract AllPages.1], .panic⟩) := by
  constructor
  · rintro ⟨pg, err⟩ Extract h1 h2
    simp only at h1 h2
    subst h1
    simp [FindRole, h2]
  · rintro ⟨pg, err⟩ Extract h1 h2
    simp only at h1 h2
    subst h1
    simp [FindProject, h2]

/-- Witness for C10: an empty project collection makes `FindProject` panic. -/
theorem find_empty_panics_witness :
    (FindProject ((0 : Nat), (none : Option String))
        (fun _ => (([] : List (projects.Project Unit)), (none : Option String)))).outcome
      = Outcome.panic :=
  congrArg Run.outcome
    ((@find_empty_panics Nat Unit Unit String).2 ((0 : Nat), (none : Option String))
      (fun _ => (([] : List (projects.Project Unit)), (none : Option String))) rfl rfl)

/-! ## Role grants: error policies -/

/-- C7: for every role, user and project record, AssignRoleToUserOnProject
issues one grant request keyed by (role.ID, user.ID, project.ID) in that
order, returns the error of the request itself when it fails, and returns nil
when it succeeds. -/
theorem assign_keys_and_propagates {GR GU GP E : Type}
    (Assign : String → String → String → Option E)
    (role : roles.Role GR) (user : users.User GU) (project : projects.Project GP) :
    (AssignRoleToUserOnProject Assign (some role) (some user) (some project)).requests
        = [(role.ID, user.ID, project.ID)] ∧
      (∀ e, Assign role.ID user.ID project.ID = some e →
        (AssignRoleToUserOnProject Assign (some role) (some user) (some project)).outcome
          = .returned (some e)) ∧
      (Assign role.ID user.ID project.ID = none →
        (AssignRoleToUserOnProject Assign (some role) (some user) (some project)).outcome
          = .returned none) := by
  cases h : Assign role.ID user.ID project.ID <;> simp [AssignRoleToUserOnProject, h]

/-- Witness for C7: a library that accepts only the key in the order
(role, user, project) sees the grant succeed. -/
theorem assign_keys_and_propagates_witness :
    (AssignRoleToUserOnProject
        (fun r u p => if (r, u, p) = ("r-1", "u-1", "p-1") then none else some "bad key")
        (some (⟨"r-1", "admin", ()⟩ : roles.Role Unit))
        (some (⟨"u-1", "alice", ()⟩ : users.User Unit))
        (some (⟨"p-1", "demo", ()⟩ : projects.Project Unit))).outcome
      = Outcome.returned none :=
  (assign_keys_and_propagates
    (fun r u p => if (r, u, p) = ("r-1", "u-1", "p-1") then none else some "bad key")
    (⟨"r-1", "admin", ()⟩ : roles.Role Unit) (⟨"u-1", "alice", ()⟩ : users.User Unit)
    (⟨"p-1", "demo", ()⟩ : projects.Project Unit)).2.2 (by decide)

/-- C8: for every role, user and project record,
UnassignRoleFromUserOnProject issues one remove-grant request keyed by
(role.ID, user.ID, project.ID) and ends in `t.Fatalf` if and only if that
request returns a non-nil error; the failure message is the fixed text
"Unable to remove role", and two runs whose requests fail with any two
errors (of any error types) are indistinguishable in logs, requests and
failure message. -/
theorem unassign_aborts_with_generic_message {GR GU GP E E2 : Type}
    (Unassign : String → String → String → Option E)
    (Unassign2 : String → String → String → Option E2)
    (role : roles.Role GR) (user : users.User GU) (project : projects.Project GP) :
    (UnassignRoleFromUserOnProject Unassign (some role) (some user) (some project)).requests
        = [(role.ID, user.ID, project.ID)] ∧
      ((∃ msg,
          (UnassignRoleFromUserOnProject Unassign (some role) (some user) (some project)).outcome
            = .fatal msg) ↔ Unassign role.ID user.ID project.ID ≠ none) ∧
      (∀ msg,
        (UnassignRoleFromUserOnProject Unassign (some role) (some user) (some project)).outcome
            = .fatal msg → msg = "Unable to remove role") ∧
      (Unassign role.ID user.ID project.ID ≠ none →
        Unassign2 role.ID user.ID project.ID ≠ none →
        UnassignRoleFromUserOnProject Unassign (some role) (some user) (some project)
          = UnassignRoleFromUserOnProject Unassign2 (some role) (some user) (some project)) := by
  cases h : Unassign role.ID user.ID project.ID <;>
    cases h2 : Unassign2 role.ID user.ID project.ID <;>
    simp [UnassignRoleFromUserOnProject, h, h2]

/-- Witness for C8: a "not found" failure and a "connection refused" failure
give the same run. -/
theorem unassign_aborts_with_generic_message_witness :
    UnassignRoleFromUserOnProject (fun _ _ _ => some "404 role not found")
        (some (⟨"r-1", "admin", ()⟩ : roles.Role Unit))
        (some (⟨"u-1", "alice", ()⟩ : users.User Unit))
        (some (⟨"p-1", "demo", ()⟩ : projects.Project Unit))
      = UnassignRoleFromUserOnProject (fun _ _ _ => some "connection refused")
        (some (⟨"r-1", "admin", ()⟩ : roles.Role Unit))
        (some (⟨"u-1", "alice", ()⟩ : users.User Unit))
        (some (⟨"p-1", "demo", ()⟩ : projects.Project Unit)) :=
  (unassign_aborts_with_generic_message (fun _ _ _ => some "404 role not found")
    (fun _ _ _ => some "connection refused")
    (⟨"r-1", "admin", ()⟩ : roles.Role Unit) (⟨"u-1", "alice", ()⟩ : users.User Unit)
    (⟨"p-1", "demo", ()⟩ : projects.Project Unit)).2.2.2 (by simp) (by simp)

end v3
